import Mathlib

/-!
Verification of the trajectory-optimization core.
Shallow embedding of `src/TrajectoryPlannerV1_0.py` (and its duplicate
`src/prueba/TrajectoryPlannerV1_0.py`).

The Python code builds a symbolic nonlinear program (NLP) with CasADi:
`forward_kinematics` composes Denavit-Hartenberg transforms symbolically,
`setup_optimization` assembles decision variables, an objective and a
constraint list, `solve_and_print_trajectory` hands the NLP to the ipopt
backend, and `optimize_from_waypoints_deg` is the degree-facing orchestrator.

Embedding choices:
* Scalars are a linearly ordered field `R`; the theorems instantiate it at
  `ℚ` for concrete evaluation.  Python float literals are embedded as the
  exact decimal fractions they denote (ideal-arithmetic model).
* CasADi's `cos`, `sin` and `pi` are opaque to every claim considered here
  (no claim depends on a trigonometric identity), so they are passed as an
  explicit record `ScalarOps` of abstract operations, exactly where the
  source calls `ca.cos` / `ca.sin` / `ca.pi`.
* The symbolic NLP is embedded semantically: a decision assignment is a
  function `Fin 6 → ℕ → R` (joint, sample column) and each `subject_to`
  call contributes one predicate on assignments, collected in source order.
* The ipopt backend is an opaque collaborator: a function from the
  assembled problem to either a solution matrix or a failure status.  The
  Python code wraps the single `opti.solve()` call in no try/except, so a
  backend failure propagates as CasADi's one exception class
  (`RuntimeError`) whose payload carries the backend status string; this is
  embedded as the one-constructor error type `PlannerError`.
-/

/-- The scalar operations the source takes from CasADi (`ca.cos`, `ca.sin`,
`ca.pi`).  The claims under consideration treat them as opaque, so the
embedding abstracts them. -/
structure ScalarOps (R : Type) where
  rcos : R → R
  rsin : R → R
  rpi : R

/-- An axis-aligned obstacle box `(xmin, xmax, ymin, ymax, zmin, zmax)`,
the tuple destructured in the obstacle loop of `setup_optimization`. -/
structure Box (R : Type) where
  xmin : R
  xmax : R
  ymin : R
  ymax : R
  zmin : R
  zmax : R
  deriving DecidableEq

variable {R : Type} [LinearOrderedField R]

/-- Embeds `dh_transform(theta, d, a, alpha)` from the source: the explicit 4×4
Denavit-Hartenberg matrix built by `ca.vertcat`/`ca.horzcat`. -/
def dh_transform (ops : ScalarOps R) (θ d a α : R) : Matrix (Fin 4) (Fin 4) R :=
  !![ops.rcos θ, -ops.rsin θ * ops.rcos α, ops.rsin θ * ops.rsin α, a * ops.rcos θ;
     ops.rsin θ, ops.rcos θ * ops.rcos α, -ops.rcos θ * ops.rsin α, a * ops.rsin θ;
     0, ops.rsin α, ops.rcos α, d;
     0, 0, 0, 1]

/-- Embeds `tcp_offset()` from the source: the fixed TCP offset matrix, a
translation of `0.200` along the tool's local Z axis. -/
def tcp_offset : Matrix (Fin 4) (Fin 4) R :=
  !![1, 0, 0, 0;
     0, 1, 0, 0;
     0, 0, 1, 200/1000;
     0, 0, 0, 1]

/-- The `d` list (link offsets) hard-coded in `forward_kinematics`:
`[0.1273, 0, 0, 0.1639, 0.1157, 0.0922]`. -/
def dh_d : Fin 6 → R :=
  ![1273/10000, 0, 0, 1639/10000, 1157/10000, 922/10000]

/-- The `a` list (link lengths) hard-coded in `forward_kinematics`:
`[0, -0.612, -0.5723, 0, 0, 0]`. -/
def dh_a : Fin 6 → R :=
  ![0, -612/1000, -5723/10000, 0, 0, 0]

/-- The `alpha` list (link twists) hard-coded in `forward_kinematics`:
`[pi/2, 0, 0, pi/2, -pi/2, 0]`. -/
def dh_alpha (ops : ScalarOps R) : Fin 6 → R :=
  ![ops.rpi / 2, 0, 0, ops.rpi / 2, -(ops.rpi / 2), 0]

/-- Embeds `forward_kinematics(q)` from the source: starting from the 4×4 identity,
left-to-right multiply the six DH transforms in joint order, post-multiply
the TCP offset, and return the translation column `T[0:3, 3]`. -/
def forward_kinematics (ops : ScalarOps R) (q : Fin 6 → R) : Fin 3 → R :=
  let T := (List.finRange 6).foldl
    (fun T i => T * dh_transform ops (q i) (dh_d i) (dh_a i) (dh_alpha ops i)) 1
  let T' := T * tcp_offset
  fun i => T' i.castSucc 3

/-- The per-axis outside-distance-squared expression assembled in the
obstacle loop of `setup_optimization`:
`dx = fmax(xmin - x, 0) + fmax(x - xmax, 0)` (same for y, z), result
`dx^2 + dy^2 + dz^2`. -/
def outside_dist_sq (b : Box R) (p : Fin 3 → R) : R :=
  let dx := max (b.xmin - p 0) 0 + max (p 0 - b.xmax) 0
  let dy := max (b.ymin - p 1) 0 + max (p 1 - b.ymax) 0
  let dz := max (b.zmin - p 2) 0 + max (p 2 - b.zmax) 0
  dx ^ 2 + dy ^ 2 + dz ^ 2

/-- The result of `setup_optimization`: the number of sample columns `N`,
the scalar objective, and the `subject_to` constraint list, each constraint
a predicate on decision assignments `Fin 6 → ℕ → R` (joint, column). -/
structure SetupResult (R : Type) where
  N : ℕ
  objective : (Fin 6 → ℕ → R) → R
  constraints : List ((Fin 6 → ℕ → R) → Prop)

/-- Embeds `setup_optimization(waypoints, steps_between_waypoints,
joint_limits, obstacles, d_min)` from the source.  `N = (len(waypoints) - 1) *
steps_between_waypoints + 1`; the objective is `sumsqr(q[:,1:] - q[:,:-1])`;
the constraints are, in source order: for each joint `j` the row bound
`joint_limits[j][0] <= q[j,:] <= joint_limits[j][1]`, for each waypoint `i`
the column equality `q[:, i*steps] == wp`, and for each column `k` and each
obstacle the clearance inequality `outside_dist_sq >= d_min^2` at the
end-effector position of column `k`. -/
def setup_optimization (ops : ScalarOps R) (waypoints : List (Fin 6 → R))
    (steps_between_waypoints : ℕ) (joint_limits : Fin 6 → R × R)
    (obstacles : List (Box R)) (d_min : R) : SetupResult R :=
  let N := (waypoints.length - 1) * steps_between_waypoints + 1
  { N := N
    objective := fun q =>
      ∑ j : Fin 6, ∑ k ∈ Finset.range (N - 1), (q j (k + 1) - q j k) ^ 2
    constraints :=
      ((List.finRange 6).map fun j =>
        fun q => ∀ k < N, (joint_limits j).1 ≤ q j k ∧ q j k ≤ (joint_limits j).2) ++
      (waypoints.enum.map fun iwp =>
        fun q => ∀ j : Fin 6, q j (iwp.1 * steps_between_waypoints) = iwp.2 j) ++
      ((List.range N).flatMap fun k => obstacles.map fun b =>
        fun q => d_min ^ 2 ≤ outside_dist_sq b (forward_kinematics ops fun j => q j k)) }

/-- Outcome of the single `opti.solve()` call: either a solution value for
the decision matrix, or a failure with the backend's return status. -/
inductive SolveOutcome (R : Type) where
  | success (sol : Fin 6 → ℕ → R)
  | failure (status : String)

/-- The one exception class the source lets escape from the solve step:
CasADi raises `RuntimeError` carrying the backend status in its message;
no code in the source maps it to anything finer. -/
inductive PlannerError where
  | runtimeError (status : String)

/-- The Python exception class of a `PlannerError` — what a caller can
catch.  The source defines a single class, `RuntimeError`. -/
def PlannerError.kind : PlannerError → String
  | .runtimeError _ => "RuntimeError"

/-- Embeds `np.radians` applied entrywise by `optimize_from_waypoints_deg`:
multiply by `pi/180`. -/
def radians (ops : ScalarOps R) (x : R) : R := x * (ops.rpi / 180)

/-- Embeds `np.rad2deg` applied entrywise by `solve_and_print_trajectory`:
multiply by `180/pi`. -/
def rad2deg (ops : ScalarOps R) (x : R) : R := x * (180 / ops.rpi)

/-- Embeds `solve_and_print_trajectory(opti, q, N)` from the source: perform the
single backend solve; on success convert the solution matrix to degrees and
return it, on failure let the backend's exception propagate unchanged.  The
backend (`opti.solver("ipopt"); opti.solve()`) is the opaque `solver`
argument; the printing side effect is not modelled. -/
def solve_and_print_trajectory (ops : ScalarOps R)
    (solver : SetupResult R → SolveOutcome R) (s : SetupResult R) :
    Except PlannerError (Fin 6 → ℕ → R) :=
  match solver s with
  | .success sol => .ok fun j k => rad2deg ops (sol j k)
  | .failure st => .error (.runtimeError st)

/-- The fixed obstacle box of `optimize_from_waypoints_deg`:
`(-0.095, 0.115, -0.76, -0.70, 0.125, 0.325)`. -/
def fixedObstacle : Box R :=
  { xmin := -95/1000, xmax := 115/1000
    ymin := -76/100, ymax := -70/100
    zmin := 125/1000, zmax := 325/1000 }

/-- Embeds `optimize_from_waypoints_deg(waypoints_deg)` from the source: convert
the waypoints to radians, fix `steps_between_waypoints = 3`,
`joint_limits = [(-pi, pi)] * 6`, the single obstacle box and
`d_min = 0.05`, assemble the NLP with `setup_optimization` and run
`solve_and_print_trajectory`.  No validation of the request is performed
anywhere in this function. -/
def optimize_from_waypoints_deg (ops : ScalarOps R)
    (solver : SetupResult R → SolveOutcome R) (waypoints_deg : List (Fin 6 → R)) :
    Except PlannerError (Fin 6 → ℕ → R) :=
  let waypoints_rad := waypoints_deg.map fun wp j => radians ops (wp j)
  let steps_between_waypoints := 3
  let joint_limits : Fin 6 → R × R := fun _ => (-ops.rpi, ops.rpi)
  let obstacles : List (Box R) := [fixedObstacle]
  let d_min : R := 5/100
  solve_and_print_trajectory ops solver
    (setup_optimization ops waypoints_rad steps_between_waypoints joint_limits
      obstacles d_min)

/-- A decision assignment lies inside a box when each coordinate is between
the box's min and max on that axis (component-wise, as in C1's wording). -/
def insideBox (b : Box R) (p : Fin 3 → R) : Prop :=
  b.xmin ≤ p 0 ∧ p 0 ≤ b.xmax ∧ b.ymin ≤ p 1 ∧ p 1 ≤ b.ymax ∧
    b.zmin ≤ p 2 ∧ p 2 ≤ b.zmax

/-- A fixed scalar-operation record over `ℚ` used to evaluate the embedding
on concrete inputs (the claims treat `cos`, `sin`, `pi` as opaque). -/
def opsQ : ScalarOps ℚ := ⟨id, id, 3⟩

/-- C2: for every request with at least two waypoints and positive step
count, the number of sample columns of the assembled problem is exactly
`N = (numWaypoints - 1) * stepsBetweenWaypoints + 1`. -/
theorem setup_sample_count (ops : ScalarOps R) (waypoints : List (Fin 6 → R))
    (steps : ℕ) (jl : Fin 6 → R × R) (obs : List (Box R)) (d_min : R)
    (hw : 2 ≤ waypoints.length) (hs : 0 < steps) :
    (setup_optimization ops waypoints steps jl obs d_min).N
      = (waypoints.length - 1) * steps + 1 :=
  rfl

/-- Witness for C2 at a concrete two-waypoint request with three steps
between waypoints: `N = (2 - 1) * 3 + 1 = 4`. -/
theorem setup_sample_count_witness :
    2 ≤ ([fun _ => 0, fun _ => 1] : List (Fin 6 → ℚ)).length ∧ 0 < 3 ∧
    (setup_optimization opsQ [fun _ => 0, fun _ => 1] 3 (fun _ => (-3, 3)) []
        0).N = (2 - 1) * 3 + 1 :=
  ⟨by decide, by decide,
    setup_sample_count opsQ [fun _ => 0, fun _ => 1] 3 (fun _ => (-3, 3)) [] 0
      (by decide) (by decide)⟩

/-- C4: the assembled objective is exactly the sum over consecutive column
pairs of the squared Euclidean norm of their difference,
`sum_k ||q[:,k+1] - q[:,k]||^2`, with no other term. -/
theorem setup_objective_is_velocity_smoothness (ops : ScalarOps R)
    (waypoints : List (Fin 6 → R)) (steps : ℕ) (jl : Fin 6 → R × R)
    (obs : List (Box R)) (d_min : R) :
    (setup_optimization ops waypoints steps jl obs d_min).objective
      = fun q => ∑ k ∈ Finset.range ((waypoints.length - 1) * steps),
          ∑ j : Fin 6, (q j (k + 1) - q j k) ^ 2 := by
  funext q
  show ∑ j : Fin 6, ∑ k ∈ Finset.range ((waypoints.length - 1) * steps + 1 - 1),
      (q j (k + 1) - q j k) ^ 2 = _
  rw [Nat.add_sub_cancel]
  exact Finset.sum_comm

/-- C9: `optimize_from_waypoints_deg` always uses the compiled-in planning
parameters — `stepsBetweenWaypoints = 3`, every joint limit pair the
symmetric interval `(-pi, pi)`, exactly the one fixed obstacle box
`(-0.095, 0.115, -0.76, -0.70, 0.125, 0.325)`, and `minClearance = 0.05` —
independently of the request. -/
theorem optimize_uses_fixed_parameters (ops : ScalarOps R)
    (solver : SetupResult R → SolveOutcome R) (waypoints_deg : List (Fin 6 → R)) :
    optimize_from_waypoints_deg ops solver waypoints_deg
      = solve_and_print_trajectory ops solver
          (setup_optimization ops (waypoints_deg.map fun wp j => radians ops (wp j))
            3 (fun _ => (-ops.rpi, ops.rpi)) [fixedObstacle] (5/100)) ∧
    (fixedObstacle : Box R)
      = ⟨-95/1000, 115/1000, -76/100, -70/100, 125/1000, 325/1000⟩ :=
  ⟨rfl, rfl⟩

/-- C1: the assembled problem contains, for every sample column `k` and
every obstacle box, exactly the clearance constraint
`outside_dist_sq >= d_min^2` at the end-effector position of column `k`;
the outside-distance-squared expression is `0` at any point inside the box,
so for positive `d_min` an interior point violates the constraint. -/
theorem clearance_constraint_shape (ops : ScalarOps R)
    (waypoints : List (Fin 6 → R)) (steps : ℕ) (jl : Fin 6 → R × R)
    (obs : List (Box R)) (d_min : R) (b : Box R) (k : ℕ) (p : Fin 3 → R)
    (hk : k < (setup_optimization ops waypoints steps jl obs d_min).N)
    (hb : b ∈ obs) (hin : insideBox b p) (hd : 0 < d_min) :
    ((fun q => d_min ^ 2 ≤ outside_dist_sq b (forward_kinematics ops fun j => q j k))
        ∈ (setup_optimization ops waypoints steps jl obs d_min).constraints) ∧
      outside_dist_sq b p = 0 ∧ ¬ d_min ^ 2 ≤ outside_dist_sq b p := by
  obtain ⟨h1, h2, h3, h4, h5, h6⟩ := hin
  have hzero : outside_dist_sq b p = 0 := by
    unfold outside_dist_sq
    rw [max_eq_right (sub_nonpos.2 h1), max_eq_right (sub_nonpos.2 h2),
      max_eq_right (sub_nonpos.2 h3), max_eq_right (sub_nonpos.2 h4),
      max_eq_right (sub_nonpos.2 h5), max_eq_right (sub_nonpos.2 h6)]
    ring
  refine ⟨?_, hzero, ?_⟩
  · exact List.mem_append_right _ (List.mem_flatMap.2 ⟨k, List.mem_range.2 hk,
      List.mem_map.2 ⟨b, hb, rfl⟩⟩)
  · rw [hzero]
    exact not_le.2 (pow_pos hd 2)

/-- Witness for C1: the unit box with the point `(1/2, 1/2, 1/2)` inside
it and `d_min = 1/100 > 0`, at sample column `k = 0` of an empty-waypoint
request (`N = 1`). -/
theorem clearance_constraint_shape_witness :
    (0 < (setup_optimization opsQ [] 0 (fun _ => (-3, 3)) [⟨0, 1, 0, 1, 0, 1⟩]
        (1/100)).N) ∧
    ((⟨0, 1, 0, 1, 0, 1⟩ : Box ℚ) ∈ [(⟨0, 1, 0, 1, 0, 1⟩ : Box ℚ)]) ∧
    insideBox (⟨0, 1, 0, 1, 0, 1⟩ : Box ℚ) (fun _ => 1/2) ∧ (0 < (1/100 : ℚ)) ∧
    (((fun q => (1/100 : ℚ) ^ 2 ≤ outside_dist_sq ⟨0, 1, 0, 1, 0, 1⟩
          (forward_kinematics opsQ fun j => q j 0))
        ∈ (setup_optimization opsQ [] 0 (fun _ => (-3, 3)) [⟨0, 1, 0, 1, 0, 1⟩]
            (1/100)).constraints) ∧
      outside_dist_sq (⟨0, 1, 0, 1, 0, 1⟩ : Box ℚ) (fun _ => 1/2) = 0 ∧
      ¬ (1/100 : ℚ) ^ 2 ≤ outside_dist_sq (⟨0, 1, 0, 1, 0, 1⟩ : Box ℚ)
          (fun _ => 1/2)) :=
  ⟨by decide, by decide, by constructor <;> norm_num [insideBox], by norm_num,
    clearance_constraint_shape opsQ [] 0 (fun _ => (-3, 3))
      [⟨0, 1, 0, 1, 0, 1⟩] (1/100) ⟨0, 1, 0, 1, 0, 1⟩ 0 (fun _ => 1/2)
      (by decide) (by decide) (by constructor <;> norm_num [insideBox])
      (by norm_num)⟩

/-- The waypoint-pinning constraint for waypoint `i` is among the
constraints assembled by `setup_optimization` (helper shared by the
waypoint claims). -/
theorem pin_constraint_mem (ops : ScalarOps R) (waypoints : List (Fin 6 → R))
    (steps : ℕ) (jl : Fin 6 → R × R) (obs : List (Box R)) (d_min : R)
    (i : ℕ) (hi : i < waypoints.length) :
    (fun q : Fin 6 → ℕ → R => ∀ j : Fin 6, q j (i * steps) = waypoints.get ⟨i, hi⟩ j)
      ∈ (setup_optimization ops waypoints steps jl obs d_min).constraints := by
  have hmem : ((i, waypoints.get ⟨i, hi⟩) : ℕ × (Fin 6 → R)) ∈ waypoints.enum :=
    List.mk_mem_enum_iff_getElem?.2
      (by rw [List.getElem?_eq_getElem hi, List.get_eq_getElem])
  exact List.mem_append_left _
    (List.mem_append_right _ (List.mem_map.2 ⟨_, hmem, rfl⟩))

/-- C3: the assembled problem contains the equality constraint pinning the
column at index `i * stepsBetweenWaypoints` to waypoint `i`, and every
assignment satisfying all constraints has that column equal to waypoint
`i`. -/
theorem waypoint_pinning (ops : ScalarOps R) (waypoints : List (Fin 6 → R))
    (steps : ℕ) (jl : Fin 6 → R × R) (obs : List (Box R)) (d_min : R)
    (q : Fin 6 → ℕ → R) (i : ℕ) (hi : i < waypoints.length)
    (hq : ∀ c ∈ (setup_optimization ops waypoints steps jl obs d_min).constraints, c q) :
    ((fun q' : Fin 6 → ℕ → R =>
        ∀ j : Fin 6, q' j (i * steps) = waypoints.get ⟨i, hi⟩ j)
      ∈ (setup_optimization ops waypoints steps jl obs d_min).constraints) ∧
    ∀ j : Fin 6, q j (i * steps) = waypoints.get ⟨i, hi⟩ j := by
  have hc := pin_constraint_mem ops waypoints steps jl obs d_min i hi
  exact ⟨hc, hq _ hc⟩

/-- Witness for C3: a two-waypoint request pinning columns 0 and 1, with
the assignment that is 0 on column 0 and 1 elsewhere satisfying every
constraint. -/
theorem waypoint_pinning_witness :
    (1 < ([fun _ => 0, fun _ => 1] : List (Fin 6 → ℚ)).length) ∧
    (∀ c ∈ (setup_optimization opsQ [fun _ => 0, fun _ => 1] 1
        (fun _ => (-3, 3)) [] 0).constraints,
      c fun _ k => if k = 0 then (0 : ℚ) else 1) ∧
    ((fun q' : Fin 6 → ℕ → ℚ => ∀ j : Fin 6, q' j (1 * 1)
          = ([fun _ => 0, fun _ => 1] : List (Fin 6 → ℚ)).get ⟨1, by decide⟩ j)
        ∈ (setup_optimization opsQ [fun _ => 0, fun _ => 1] 1
            (fun _ => (-3, 3)) [] 0).constraints) ∧
    (∀ j : Fin 6, (if 1 * 1 = 0 then (0 : ℚ) else 1)
        = ([fun _ => 0, fun _ => 1] : List (Fin 6 → ℚ)).get ⟨1, by decide⟩ j) := by
  have hsat : ∀ c ∈ (setup_optimization opsQ [fun _ => 0, fun _ => 1] 1
      (fun _ => (-3, 3)) [] 0).constraints,
      c fun _ k => if k = 0 then (0 : ℚ) else 1 := by
    intro c hc
    rcases List.mem_append.1 hc with h | h
    · rcases List.mem_append.1 h with h' | h'
      · rcases List.mem_map.1 h' with ⟨j, _, rfl⟩
        intro k hk
        refine ⟨?_, ?_⟩ <;> (dsimp only; split <;> norm_num)
      · rcases List.mem_map.1 h' with ⟨⟨i', wp⟩, hmem, rfl⟩
        simp only [List.enum, List.enumFrom, List.mem_cons, List.not_mem_nil,
          or_false, Prod.mk.injEq] at hmem
        rcases hmem with ⟨rfl, rfl⟩ | ⟨rfl, rfl⟩ <;> intro j <;> norm_num
    · simp at h
  exact ⟨by decide, hsat,
    (waypoint_pinning opsQ [fun _ => 0, fun _ => 1] 1 (fun _ => (-3, 3)) [] 0
      (fun _ k => if k = 0 then (0 : ℚ) else 1) 1 (by decide) hsat).1,
    (waypoint_pinning opsQ [fun _ => 0, fun _ => 1] 1 (fun _ => (-3, 3)) [] 0
      (fun _ k => if k = 0 then (0 : ℚ) else 1) 1 (by decide) hsat).2⟩

/-- C8: degrees→radians→degrees is the identity, and consequently on any
solution matrix satisfying the assembled constraints the degree-converted
value returned at a pinned sample index equals the original input
waypoint. -/
theorem degree_roundtrip_at_pins (ops : ScalarOps R) (hpi : ops.rpi ≠ 0)
    (solver : SetupResult R → SolveOutcome R) (waypoints_deg : List (Fin 6 → R))
    (steps : ℕ) (jl : Fin 6 → R × R) (obs : List (Box R)) (d_min : R)
    (q : Fin 6 → ℕ → R) (i : ℕ) (hi : i < waypoints_deg.length)
    (hsol : solver (setup_optimization ops
        (waypoints_deg.map fun wp j => radians ops (wp j)) steps jl obs d_min)
      = .success q)
    (hq : ∀ c ∈ (setup_optimization ops
        (waypoints_deg.map fun wp j => radians ops (wp j)) steps jl obs
        d_min).constraints, c q) :
    (∀ x : R, rad2deg ops (radians ops x) = x) ∧
    (solve_and_print_trajectory ops solver
        (setup_optimization ops (waypoints_deg.map fun wp j => radians ops (wp j))
          steps jl obs d_min)
      = .ok fun j k => rad2deg ops (q j k)) ∧
    ∀ j : Fin 6, rad2deg ops (q j (i * steps)) = waypoints_deg.get ⟨i, hi⟩ j := by
  have hrt : ∀ x : R, rad2deg ops (radians ops x) = x := by
    intro x
    unfold radians rad2deg
    field_simp
  have hi' : i < (waypoints_deg.map fun wp j => radians ops (wp j)).length := by
    simpa using hi
  have hpin := hq _ (pin_constraint_mem ops _ steps jl obs d_min i hi')
  refine ⟨hrt, ?_, ?_⟩
  · unfold solve_and_print_trajectory
    rw [hsol]
  · intro j
    rw [hpin j]
    have hget : (waypoints_deg.map fun wp j => radians ops (wp j)).get ⟨i, hi'⟩
        = fun j => radians ops (waypoints_deg.get ⟨i, hi⟩ j) := by
      simp [List.get_eq_getElem]
    rw [hget]
    exact hrt _

/-- Witness for C8: waypoints `[0, 90]` degrees with `rpi = 3`, so the
pinned radian values are `0` and `3/2`; the constant-by-column solution
satisfies every constraint and converts back to `0` and `90` degrees. -/
theorem degree_roundtrip_at_pins_witness :
    ((opsQ : ScalarOps ℚ).rpi ≠ 0) ∧
    (1 < ([fun _ => 0, fun _ => 90] : List (Fin 6 → ℚ)).length) ∧
    ((fun _ => SolveOutcome.success fun _ k => if k = 0 then (0 : ℚ) else 3/2 :
        SetupResult ℚ → SolveOutcome ℚ)
        (setup_optimization opsQ
          (([fun _ => 0, fun _ => 90] : List (Fin 6 → ℚ)).map
            fun wp j => radians opsQ (wp j)) 1 (fun _ => (-3, 3)) [] 0)
      = .success fun _ k => if k = 0 then (0 : ℚ) else 3/2) ∧
    (∀ c ∈ (setup_optimization opsQ
        (([fun _ => 0, fun _ => 90] : List (Fin 6 → ℚ)).map
          fun wp j => radians opsQ (wp j)) 1 (fun _ => (-3, 3)) []
        0).constraints,
      c fun _ k => if k = 0 then (0 : ℚ) else 3/2) ∧
    (∀ x : ℚ, rad2deg opsQ (radians opsQ x) = x) ∧
    (solve_and_print_trajectory opsQ
        (fun _ => SolveOutcome.success fun _ k => if k = 0 then (0 : ℚ) else 3/2)
        (setup_optimization opsQ
          (([fun _ => 0, fun _ => 90] : List (Fin 6 → ℚ)).map
            fun wp j => radians opsQ (wp j)) 1 (fun _ => (-3, 3)) [] 0)
      = .ok fun j k =>
          rad2deg opsQ ((fun _ k => if k = 0 then (0 : ℚ) else 3/2 :
            Fin 6 → ℕ → ℚ) j k)) ∧
    ∀ j : Fin 6, rad2deg opsQ ((fun _ k => if k = 0 then (0 : ℚ) else 3/2 :
          Fin 6 → ℕ → ℚ) j (1 * 1))
      = ([fun _ => 0, fun _ => 90] : List (Fin 6 → ℚ)).get ⟨1, by decide⟩ j := by
  have hsat : ∀ c ∈ (setup_optimization opsQ
      (([fun _ => 0, fun _ => 90] : List (Fin 6 → ℚ)).map
        fun wp j => radians opsQ (wp j)) 1 (fun _ => (-3, 3)) []
      0).constraints,
      c fun _ k => if k = 0 then (0 : ℚ) else 3/2 := by
    intro c hc
    rcases List.mem_append.1 hc with h | h
    · rcases List.mem_append.1 h with h' | h'
      · rcases List.mem_map.1 h' with ⟨j, _, rfl⟩
        intro k hk
        refine ⟨?_, ?_⟩ <;> (dsimp only; split <;> norm_num [opsQ])
      · rcases List.mem_map.1 h' with ⟨⟨i', wp⟩, hmem, rfl⟩
        simp only [List.map_cons, List.map_nil, List.enum, List.enumFrom,
          List.mem_cons, List.not_mem_nil, or_false, Prod.mk.injEq] at hmem
        rcases hmem with ⟨rfl, rfl⟩ | ⟨rfl, rfl⟩ <;> intro j <;>
          norm_num [radians, opsQ]
    · simp at h
  have main := degree_roundtrip_at_pins opsQ (by norm_num [opsQ])
    (fun _ => SolveOutcome.success fun _ k => if k = 0 then (0 : ℚ) else 3/2)
    [fun _ => 0, fun _ => 90] 1 (fun _ => (-3, 3)) [] 0
    (fun _ k => if k = 0 then (0 : ℚ) else 3/2) 1 (by decide) rfl hsat
  exact ⟨by norm_num [opsQ], by decide, rfl, hsat, main.1, main.2.1, main.2.2⟩

/-- From the spec's words: the elementary rotation about Z by `theta` in
homogeneous coordinates (`Rz`), explicit cos/sin matrix form. -/
def rotZ (ops : ScalarOps R) (θ : R) : Matrix (Fin 4) (Fin 4) R :=
  !![ops.rcos θ, -ops.rsin θ, 0, 0;
     ops.rsin θ, ops.rcos θ, 0, 0;
     0, 0, 1, 0;
     0, 0, 0, 1]

/-- From the spec's words: pure translation along Z by `d` (`Tz`). -/
def transZ (d : R) : Matrix (Fin 4) (Fin 4) R :=
  !![1, 0, 0, 0;
     0, 1, 0, 0;
     0, 0, 1, d;
     0, 0, 0, 1]

/-- From the spec's words: pure translation along X by `a` (`Tx`). -/
def transX (a : R) : Matrix (Fin 4) (Fin 4) R :=
  !![1, 0, 0, a;
     0, 1, 0, 0;
     0, 0, 1, 0;
     0, 0, 0, 1]

/-- From the spec's words: the elementary rotation about X by `alpha`
(`Rx`), explicit cos/sin matrix form. -/
def rotX (ops : ScalarOps R) (α : R) : Matrix (Fin 4) (Fin 4) R :=
  !![1, 0, 0, 0;
     0, ops.rcos α, -ops.rsin α, 0;
     0, ops.rsin α, ops.rcos α, 0;
     0, 0, 0, 1]

/-- Modelled from the spec: one link's DH transform written as the product
`T_i = Rz(theta_i) · Tz(d_i) · Tx(a_i) · Rx(alpha_i)` (refinement-side
definition, to be compared with the source's `dh_transform`). -/
def dh_transform_spec (ops : ScalarOps R) (θ d a α : R) : Matrix (Fin 4) (Fin 4) R :=
  rotZ ops θ * transZ d * transX a * rotX ops α

/-- Modelled from the spec: forward kinematics described as "starting from
the identity transform, left-multiply in joint order by each link's DH
transform, then post-multiply by the fixed TCP offset transform (pure
translation along the tool's local Z by a fixed constant); return the
translation component". -/
def forward_kinematics_spec (ops : ScalarOps R) (q : Fin 6 → R) : Fin 3 → R :=
  let T := (List.finRange 6).foldl
    (fun T i => T * dh_transform_spec ops (q i) (dh_d i) (dh_a i) (dh_alpha ops i)) 1
  let T' := T * transZ (200/1000)
  fun i => T' i.castSucc 3

/-- Product `Tz(d) · Tx(a)` computed entrywise. -/
theorem transZ_mul_transX (d a : R) :
    transZ d * transX a
      = !![1, 0, 0, a; 0, 1, 0, 0; 0, 0, 1, d; 0, 0, 0, 1] := by
  unfold transZ transX
  ext i j
  fin_cases i <;> fin_cases j <;>
    simp [Matrix.mul_apply, Fin.sum_univ_four, Matrix.vecHead, Matrix.vecTail]

/-- Product `(Tz(d) · Tx(a)) · Rx(alpha)` computed entrywise. -/
theorem transZX_mul_rotX (ops : ScalarOps R) (d a α : R) :
    (!![1, 0, 0, a; 0, 1, 0, 0; 0, 0, 1, d; 0, 0, 0, 1] : Matrix (Fin 4) (Fin 4) R)
        * rotX ops α
      = !![1, 0, 0, a;
           0, ops.rcos α, -ops.rsin α, 0;
           0, ops.rsin α, ops.rcos α, d;
           0, 0, 0, 1] := by
  unfold rotX
  ext i j
  fin_cases i <;> fin_cases j <;>
    simp [Matrix.mul_apply, Fin.sum_univ_four, Matrix.vecHead, Matrix.vecTail]

/-- The spec's four-factor product equals the source's explicit DH matrix. -/
theorem dh_transform_eq_spec (ops : ScalarOps R) (θ d a α : R) :
    dh_transform_spec ops θ d a α = dh_transform ops θ d a α := by
  unfold dh_transform_spec
  rw [mul_assoc (rotZ ops θ) (transZ d) (transX a), transZ_mul_transX,
    mul_assoc (rotZ ops θ), transZX_mul_rotX]
  unfold rotZ dh_transform
  ext i j
  fin_cases i <;> fin_cases j <;>
    (simp [Matrix.mul_apply, Fin.sum_univ_four, Matrix.vecHead, Matrix.vecTail] <;>
      ring)

/-- The source's forward kinematics coincides with the spec's description. -/
theorem forward_kinematics_eq_spec (ops : ScalarOps R) (q : Fin 6 → R) :
    forward_kinematics ops q = forward_kinematics_spec ops q := by
  unfold forward_kinematics forward_kinematics_spec
  have h : (fun (T : Matrix (Fin 4) (Fin 4) R) (i : Fin 6) =>
        T * dh_transform_spec ops (q i) (dh_d i) (dh_a i) (dh_alpha ops i))
      = fun T i => T * dh_transform ops (q i) (dh_d i) (dh_a i) (dh_alpha ops i) := by
    funext T i
    rw [dh_transform_eq_spec]
  rw [← h]
  rfl

/-- C5: `forward_kinematics` computes exactly what the spec describes — the
explicit DH matrix is `Rz(theta)·Tz(d)·Tx(a)·Rx(alpha)`, the TCP offset is
a pure translation along the tool's local Z by the fixed constant `0.200`,
and the returned position is the translation component of the composite
built by left-multiplication in joint order. -/
theorem forward_kinematics_follows_spec (ops : ScalarOps R) (q : Fin 6 → R)
    (θ d a α : R) :
    dh_transform ops θ d a α = rotZ ops θ * transZ d * transX a * rotX ops α ∧
    (tcp_offset : Matrix (Fin 4) (Fin 4) R) = transZ (200/1000) ∧
    forward_kinematics ops q = forward_kinematics_spec ops q :=
  ⟨(dh_transform_eq_spec ops θ d a α).symm, rfl, forward_kinematics_eq_spec ops q⟩

/-- C6 counterexample: a request with a single waypoint is not rejected.
The planner builds the one-column problem (its constraint list has the
full 6 + 1 + 1 entries) and returns the backend's solution converted to
degrees — no failure of any kind is raised before or instead of the
solve. -/
theorem single_waypoint_not_rejected :
    optimize_from_waypoints_deg opsQ
        (fun _ => SolveOutcome.success fun _ _ => 0) [fun _ => 0]
      = .ok (fun _ _ => rad2deg opsQ 0) ∧
    (setup_optimization opsQ
        (([fun _ => (0 : ℚ)]).map fun w j => radians opsQ (w j)) 3
        (fun _ => (-opsQ.rpi, opsQ.rpi)) [fixedObstacle]
        (5/100)).constraints.length = 8 :=
  ⟨rfl, rfl⟩

/-- C6 (amended): `optimize_from_waypoints_deg` performs no request
validation.  A single-waypoint request produces `N = 1`, the full
constraint list (6 joint-limit rows, 1 waypoint pin, 1 clearance
constraint) is still constructed, and the solve is attempted, its outcome
returned to the caller. -/
theorem no_request_validation (ops : ScalarOps R)
    (solver : SetupResult R → SolveOutcome R) (wp : Fin 6 → R) :
    (setup_optimization ops ([wp].map fun w j => radians ops (w j)) 3
        (fun _ => (-ops.rpi, ops.rpi)) [fixedObstacle] (5/100)).N = 1 ∧
    (setup_optimization ops ([wp].map fun w j => radians ops (w j)) 3
        (fun _ => (-ops.rpi, ops.rpi)) [fixedObstacle]
        (5/100)).constraints.length = 8 ∧
    optimize_from_waypoints_deg ops solver [wp]
      = solve_and_print_trajectory ops solver
          (setup_optimization ops ([wp].map fun w j => radians ops (w j)) 3
            (fun _ => (-ops.rpi, ops.rpi)) [fixedObstacle] (5/100)) :=
  ⟨rfl, rfl, rfl⟩

/-- C7 counterexample: an infeasibility failure and an iteration-budget
failure of the backend reach the caller as the same error kind
(`RuntimeError`) — the solve step does not map them to the distinct kinds
the claim names. -/
theorem solver_failures_same_kind :
    (solve_and_print_trajectory opsQ
        (fun _ => SolveOutcome.failure "Infeasible_Problem_Detected")
        (setup_optimization opsQ [] 3 (fun _ => (-3, 3)) [] 0)
      = .error (.runtimeError "Infeasible_Problem_Detected")) ∧
    (solve_and_print_trajectory opsQ
        (fun _ => SolveOutcome.failure "Maximum_Iterations_Exceeded")
        (setup_optimization opsQ [] 3 (fun _ => (-3, 3)) [] 0)
      = .error (.runtimeError "Maximum_Iterations_Exceeded")) ∧
    PlannerError.kind (.runtimeError "Infeasible_Problem_Detected")
      = PlannerError.kind (.runtimeError "Maximum_Iterations_Exceeded") :=
  ⟨rfl, rfl, rfl⟩

/-- C7 (amended): when the backend solver fails, the solve step propagates
the failure unchanged as the single error kind `RuntimeError` carrying the
backend's status, with no retry; infeasibility and non-convergence are not
mapped to distinct error kinds. -/
theorem solver_failure_propagates (ops : ScalarOps R)
    (solver : SetupResult R → SolveOutcome R) (s : SetupResult R) (st : String)
    (hf : solver s = .failure st) :
    solve_and_print_trajectory ops solver s = .error (.runtimeError st) ∧
    ∀ st' : String, PlannerError.kind (.runtimeError st)
      = PlannerError.kind (.runtimeError st') := by
  constructor
  · unfold solve_and_print_trajectory
    rw [hf]
  · intro st'
    rfl

/-- Witness for the amended C7 at a concrete backend failure. -/
theorem solver_failure_propagates_witness :
    ((fun _ => SolveOutcome.failure (R := ℚ) "Infeasible_Problem_Detected")
        (setup_optimization opsQ [] 3 (fun _ => (-3, 3)) [] 0)
      = SolveOutcome.failure "Infeasible_Problem_Detected") ∧
    (solve_and_print_trajectory opsQ
        (fun _ => SolveOutcome.failure "Infeasible_Problem_Detected")
        (setup_optimization opsQ [] 3 (fun _ => (-3, 3)) [] 0)
      = .error (.runtimeError "Infeasible_Problem_Detected")) ∧
    ∀ st' : String, PlannerError.kind (.runtimeError "Infeasible_Problem_Detected")
      = PlannerError.kind (.runtimeError st') := by
  have h := solver_failure_propagates opsQ
    (fun _ => SolveOutcome.failure "Infeasible_Problem_Detected")
    (setup_optimization opsQ [] 3 (fun _ => (-3, 3)) [] 0)
    "Infeasible_Problem_Detected" rfl
  exact ⟨rfl, h.1, h.2⟩

namespace prueba

/-- Embeds `dh_transform` from `src/prueba/TrajectoryPlannerV1_0.py` (the older
copy of the planner; its code is textually identical). -/
def dh_transform (ops : ScalarOps R) (θ d a α : R) : Matrix (Fin 4) (Fin 4) R :=
  !![ops.rcos θ, -ops.rsin θ * ops.rcos α, ops.rsin θ * ops.rsin α, a * ops.rcos θ;
     ops.rsin θ, ops.rcos θ * ops.rcos α, -ops.rcos θ * ops.rsin α, a * ops.rsin θ;
     0, ops.rsin α, ops.rcos α, d;
     0, 0, 0, 1]

/-- Embeds `tcp_offset` from the prueba copy: same fixed translation `0.200`. -/
def tcp_offset : Matrix (Fin 4) (Fin 4) R :=
  !![1, 0, 0, 0;
     0, 1, 0, 0;
     0, 0, 1, 200/1000;
     0, 0, 0, 1]

/-- Embeds `forward_kinematics` from the prueba copy: identical DH parameter
lists and the same composition. -/
def forward_kinematics (ops : ScalarOps R) (q : Fin 6 → R) : Fin 3 → R :=
  let d : Fin 6 → R := ![1273/10000, 0, 0, 1639/10000, 1157/10000, 922/10000]
  let a : Fin 6 → R := ![0, -612/1000, -5723/10000, 0, 0, 0]
  let alpha : Fin 6 → R := ![ops.rpi / 2, 0, 0, ops.rpi / 2, -(ops.rpi / 2), 0]
  let T := (List.finRange 6).foldl
    (fun T i => T * dh_transform ops (q i) (d i) (a i) (alpha i)) 1
  let T' := T * tcp_offset
  fun i => T' i.castSucc 3

/-- Embeds `setup_optimization` from the prueba copy (same `N`, same objective,
same constraint set in the same order). -/
def setup_optimization (ops : ScalarOps R) (waypoints : List (Fin 6 → R))
    (steps_between_waypoints : ℕ) (joint_limits : Fin 6 → R × R)
    (obstacles : List (Box R)) (d_min : R) : SetupResult R :=
  let N := (waypoints.length - 1) * steps_between_waypoints + 1
  { N := N
    objective := fun q =>
      ∑ j : Fin 6, ∑ k ∈ Finset.range (N - 1), (q j (k + 1) - q j k) ^ 2
    constraints :=
      ((List.finRange 6).map fun j =>
        fun q => ∀ k < N, (joint_limits j).1 ≤ q j k ∧ q j k ≤ (joint_limits j).2) ++
      (waypoints.enum.map fun iwp =>
        fun q => ∀ j : Fin 6, q j (iwp.1 * steps_between_waypoints) = iwp.2 j) ++
      ((List.range N).flatMap fun k => obstacles.map fun b =>
        fun q => d_min ^ 2 ≤ outside_dist_sq b (forward_kinematics ops fun j => q j k)) }

/-- Embeds `solve_and_print_trajectory` from the prueba copy. -/
def solve_and_print_trajectory (ops : ScalarOps R)
    (solver : SetupResult R → SolveOutcome R) (s : SetupResult R) :
    Except PlannerError (Fin 6 → ℕ → R) :=
  match solver s with
  | .success sol => .ok fun j k => rad2deg ops (sol j k)
  | .failure st => .error (.runtimeError st)

/-- Embeds `optimize_from_waypoints_deg` from the prueba copy: same conversion and
the same compiled-in constants. -/
def optimize_from_waypoints_deg (ops : ScalarOps R)
    (solver : SetupResult R → SolveOutcome R) (waypoints_deg : List (Fin 6 → R)) :
    Except PlannerError (Fin 6 → ℕ → R) :=
  let waypoints_rad := waypoints_deg.map fun wp j => radians ops (wp j)
  let steps_between_waypoints := 3
  let joint_limits : Fin 6 → R × R := fun _ => (-ops.rpi, ops.rpi)
  let obstacles : List (Box R) :=
    [{ xmin := -95/1000, xmax := 115/1000, ymin := -76/100, ymax := -70/100,
       zmin := 125/1000, zmax := 325/1000 }]
  let d_min : R := 5/100
  solve_and_print_trajectory ops solver
    (setup_optimization ops waypoints_rad steps_between_waypoints joint_limits
      obstacles d_min)

end prueba

/-- C10: the two copies of the optimizer in the source tree define
extensionally equal functions — same forward kinematics, same assembled
NLP, same compiled-in constants, same returned matrix for every input. -/
theorem prueba_copy_extensionally_equal (ops : ScalarOps R) (q : Fin 6 → R)
    (θ d a α : R) (waypoints : List (Fin 6 → R)) (steps : ℕ)
    (jl : Fin 6 → R × R) (obs : List (Box R)) (d_min : R)
    (solver : SetupResult R → SolveOutcome R) (waypoints_deg : List (Fin 6 → R)) :
    prueba.dh_transform ops θ d a α = dh_transform ops θ d a α ∧
    prueba.forward_kinematics ops q = forward_kinematics ops q ∧
    prueba.setup_optimization ops waypoints steps jl obs d_min
      = setup_optimization ops waypoints steps jl obs d_min ∧
    prueba.optimize_from_waypoints_deg ops solver waypoints_deg
      = optimize_from_waypoints_deg ops solver waypoints_deg :=
  ⟨rfl, rfl, rfl, rfl⟩
